import Mathlib

/-!
Shallow embedding of the asynchronous deck-generation job pipeline of
`src/app/src/queue/deck-generation-queue.ts`, together with the
`generateCardsWithFallback` helper of
`src/app/src/main/controllers/api/decks.controller.ts`.

Modelling conventions:
* The mutable fields of the `DeckGenerationQueue` class (`connection`,
  `channel`, `isConsuming`, `statuses`) become an explicit `QueueState`
  record threaded through the operations.  `connection?`/`channel?` being
  set is modelled by the booleans `connectionSet`/`channelSet`.
* External calls (AMQP connect / createChannel / assertQueue / sendToQueue /
  consume / ack / nack, and `flashcardModel.insert`) are recorded as entries
  of an `Event` trace, in the order the code performs them.
* Outcomes of external calls are oracle parameters: `connectOk`,
  `createChannelOk` and `assertQueueOk` for the three separately awaited
  broker calls of `init` (each can fail on its own, after the earlier ones
  already took effect: a successful connect whose channel creation then
  fails leaves `connection` assigned and `channel` unset),
  `UuidGeneratorAdapter.generate` results are passed in as strings,
  `JSON.parse` of a consumed message body is carried by the message as an
  `Except`, and a `WorkerOracle` carries the outcome of the card generator
  and of each `flashcardModel.insert`.
* `DeckCardGeneratorService.generateCards` (src/ai/deck-card-generator,
  not part of this snapshot) is the external generation capability; per the
  spec its response "carries zero or more artifacts", so its outcome is an
  arbitrary `Except Unit GenerateResult` oracle value.
* A thrown JavaScript exception becomes an `Except.error`; the
  try/catch of `handleMessage` becomes the explicit error branches.
-/

namespace Educaia

/-- `export type DeckGenerationTone = "concise" | "standard" | "deep"`. -/
inductive DeckGenerationTone
  | concise
  | standard
  | deep
deriving DecidableEq, Repr

/-- One artifact produced by the generation capability: question/answer plus
optional difficulty and tags (`suggestion.difficulty`, `suggestion.tags`). -/
structure GeneratedCard where
  question : String
  answer : String
  difficulty : Option String
  tags : Option (List String)
deriving DecidableEq, Repr

/-- The object returned by `cardGenerator.generateCards`: it has a `cards`
field holding the list of generated artifacts. -/
structure GenerateResult where
  cards : List GeneratedCard
deriving DecidableEq, Repr

/-- The `{ question, answer }` projection stored in a `completed` status. -/
structure CardQA where
  question : String
  answer : String
deriving DecidableEq, Repr

/-- `interface DeckGenerationPayload` of deck-generation-queue.ts. -/
structure DeckGenerationPayload where
  jobId : String
  deckId : String
  deckName : String
  deckSubject : String
  userId : String
  content : String
  goal : Option String
  tone : Option DeckGenerationTone
deriving DecidableEq, Repr

/-- The payload fields except `jobId`: `Omit<DeckGenerationPayload, "jobId">`. -/
structure EnqueueInput where
  deckId : String
  deckName : String
  deckSubject : String
  userId : String
  content : String
  goal : Option String
  tone : Option DeckGenerationTone
deriving DecidableEq, Repr

/-- `const payload: DeckGenerationPayload = { ...input, jobId }`. -/
def mkPayload (input : EnqueueInput) (jobId : String) : DeckGenerationPayload :=
  { jobId := jobId
    deckId := input.deckId
    deckName := input.deckName
    deckSubject := input.deckSubject
    userId := input.userId
    content := input.content
    goal := input.goal
    tone := input.tone }

/-- `export type DeckGenerationStatus` — the four-state tagged union. -/
inductive DeckGenerationStatus
  | queued (message : String)
  | processing (message : String)
  | completed (message : String) (cards : List CardQA)
  | failed (message : String)
deriving DecidableEq, Repr

/-- The record passed to `flashcardModel.insert` in `handleMessage`
(the `fields` key/value list, one field per entry). -/
structure FlashcardRecord where
  id : String
  question : String
  answer : String
  user_id : String
  deck_id : String
  status : String
  review_count : Nat
  last_review_date : Option String
  difficulty : String
  tags : List String
deriving DecidableEq, Repr

/-- Observable external actions, in program order. -/
inductive Event
  | connect
  | createChannel
  | assertQueue (name : String) (durable : Bool)
  | statusWrite (jobId : String) (status : DeckGenerationStatus)
  | publish (queue : String) (payload : DeckGenerationPayload) (persistent : Bool)
  | consumeStart (queue : String)
  | insertCard (record : FlashcardRecord)
  | ack
  | nack (allUpTo : Bool) (requeue : Bool)
deriving DecidableEq, Repr

/-- Errors surfaced by the submission path: `amqplib.connect` failing, and
the explicit `throw new Error("RabbitMQ channel is not available")`. -/
inductive QueueError
  | brokerUnavailable
  | channelNotAvailable
deriving DecidableEq, Repr

/-- The mutable fields of the `DeckGenerationQueue` singleton. -/
structure QueueState where
  connectionSet : Bool
  channelSet : Bool
  isConsuming : Bool
  statuses : List (String × DeckGenerationStatus)
deriving DecidableEq, Repr

/-- The state of the freshly constructed singleton. -/
def initialState : QueueState :=
  { connectionSet := false, channelSet := false, isConsuming := false, statuses := [] }

namespace DeckGenerationQueue

def queueName : String := "deck-generation"

/-- `this.statuses.set(jobId, st)` — the most recent write wins. -/
def setStatus (s : QueueState) (jobId : String) (st : DeckGenerationStatus) : QueueState :=
  { s with statuses := (jobId, st) :: s.statuses }

/-- `getStatus(jobId)` — `this.statuses.get(jobId)`. -/
def getStatus (s : QueueState) (jobId : String) : Option DeckGenerationStatus :=
  (s.statuses.find? (fun p => p.1 == jobId)).map (fun p => p.2)

def queuedStatus : DeckGenerationStatus :=
  .queued "Conteúdo enviado para a fila de geração."

def processingStatus : DeckGenerationStatus :=
  .processing "Processando geração na fila RabbitMQ..."

def completedStatus (cards : List CardQA) : DeckGenerationStatus :=
  .completed "Cartas geradas e adicionadas ao baralho." cards

def failedStatus : DeckGenerationStatus :=
  .failed "Falha ao processar a geração de flashcards."

/-- `async init()`: return if a channel exists, otherwise run the three
separately awaited broker calls in order.  Each can fail on its own
(oracles `connectOk`, `createChannelOk`, `assertQueueOk`); an earlier call
keeps its effect when a later one throws: `this.connection` is assigned
before `createChannel` runs, and `this.channel` before `assertQueue`. -/
def init (s : QueueState) (connectOk createChannelOk assertQueueOk : Bool) :
    QueueState × List Event × Except QueueError Unit :=
  if s.channelSet then (s, [], Except.ok ())
  else if connectOk = false then
    (s, [], Except.error QueueError.brokerUnavailable)
  else if createChannelOk = false then
    ({ s with connectionSet := true }, [Event.connect],
      Except.error QueueError.brokerUnavailable)
  else if assertQueueOk = false then
    ({ s with connectionSet := true, channelSet := true },
      [Event.connect, Event.createChannel],
      Except.error QueueError.brokerUnavailable)
  else
    ({ s with connectionSet := true, channelSet := true },
      [Event.connect, Event.createChannel, Event.assertQueue queueName true],
      Except.ok ())

/-- `private async startConsumer()`: lazily init, bail when no channel or
already consuming, else set the guard and register the consumer. -/
def startConsumer (s : QueueState) (connectOk createChannelOk assertQueueOk : Bool) :
    QueueState × List Event × Except QueueError Unit :=
  match (if s.channelSet then (s, [], Except.ok ())
         else init s connectOk createChannelOk assertQueueOk) with
  | (s1, ev1, Except.error e) => (s1, ev1, Except.error e)
  | (s1, ev1, Except.ok _) =>
    if s1.channelSet = false ∨ s1.isConsuming = true then (s1, ev1, Except.ok ())
    else ({ s1 with isConsuming := true },
      ev1 ++ [Event.consumeStart queueName], Except.ok ())

/-- `async enqueue(input)`: lazily init, throw when the channel is still
unavailable, generate a `jobId` (the `jobId` oracle argument), write the
`queued` status, publish the payload persistently, lazily start the
consumer, and return the `jobId`. -/
def enqueue (s : QueueState) (connectOk createChannelOk assertQueueOk : Bool)
    (jobId : String) (input : EnqueueInput) :
    QueueState × List Event × Except QueueError String :=
  match (if s.channelSet then (s, [], Except.ok ())
         else init s connectOk createChannelOk assertQueueOk) with
  | (s1, ev1, Except.error e) => (s1, ev1, Except.error e)
  | (s1, ev1, Except.ok _) =>
    if s1.channelSet = false then
      (s1, ev1, Except.error QueueError.channelNotAvailable)
    else
      let payload := mkPayload input jobId
      let s2 := setStatus s1 jobId queuedStatus
      let ev2 := ev1 ++ [Event.statusWrite jobId queuedStatus,
                         Event.publish queueName payload true]
      if s2.isConsuming then (s2, ev2, Except.ok jobId)
      else
        match startConsumer s2 connectOk createChannelOk assertQueueOk with
        | (s3, ev3, Except.error e) => (s3, ev2 ++ ev3, Except.error e)
        | (s3, ev3, Except.ok _) => (s3, ev2 ++ ev3, Except.ok jobId)

/-- A delivered broker message: `parsed` is the outcome of
`JSON.parse(message.content.toString())` (an exception when the body is
malformed) and `messageId` is `message.properties.messageId`. -/
structure ConsumeMessage where
  parsed : Except Unit DeckGenerationPayload
  messageId : Option String
deriving Repr

/-- Oracle for the worker's external calls: the card generator outcome,
whether the i-th `flashcardModel.insert` succeeds, and the uuid generated
for the i-th inserted card. -/
structure WorkerOracle where
  generated : Except Unit GenerateResult
  insertOk : Nat → Bool
  cardIds : Nat → String

/-- The record built for `flashcardModel.insert` for one suggestion. -/
def mkFlashcardRecord (payload : DeckGenerationPayload) (id : String)
    (card : GeneratedCard) : FlashcardRecord :=
  { id := id
    question := card.question
    answer := card.answer
    user_id := payload.userId
    deck_id := payload.deckId
    status := "new"
    review_count := 0
    last_review_date := none
    difficulty := card.difficulty.getD "medium"
    tags := card.tags.getD [] }

/-- The `for (const suggestion of cards.cards)` insert loop, starting at
card index `i`: returns the insert events performed and whether every
insert succeeded (a failing insert throws, ending the loop). -/
def insertCards (payload : DeckGenerationPayload) (o : WorkerOracle) :
    List GeneratedCard → Nat → List Event × Bool
  | [], _ => ([], true)
  | card :: rest, i =>
    if o.insertOk i then
      let r := insertCards payload o rest (i + 1)
      (Event.insertCard (mkFlashcardRecord payload (o.cardIds i) card) :: r.1, r.2)
    else ([], false)

/-- `private async handleMessage(message)`: return when the channel is
unset; otherwise parse, write `processing`, generate, insert every card,
write `completed` with the question/answer projection and ack — and on any
thrown error write `failed` under `payload?.jobId ?? messageId ?? "unknown"`
and nack without requeue. -/
def handleMessage (s : QueueState) (msg : ConsumeMessage) (o : WorkerOracle) :
    QueueState × List Event :=
  if s.channelSet = false then (s, [])
  else
    match msg.parsed with
    | Except.error _ =>
      let jobId := msg.messageId.getD "unknown"
      (setStatus s jobId failedStatus,
        [Event.statusWrite jobId failedStatus, Event.nack false false])
    | Except.ok payload =>
      let s1 := setStatus s payload.jobId processingStatus
      let ev1 : List Event := [Event.statusWrite payload.jobId processingStatus]
      match o.generated with
      | Except.error _ =>
        (setStatus s1 payload.jobId failedStatus,
          ev1 ++ [Event.statusWrite payload.jobId failedStatus, Event.nack false false])
      | Except.ok result =>
        let ins := insertCards payload o result.cards 0
        if ins.2 then
          let st := completedStatus (result.cards.map fun c =>
            { question := c.question, answer := c.answer })
          (setStatus s1 payload.jobId st,
            ev1 ++ ins.1 ++ [Event.statusWrite payload.jobId st, Event.ack])
        else
          (setStatus s1 payload.jobId failedStatus,
            ev1 ++ ins.1 ++ [Event.statusWrite payload.jobId failedStatus,
              Event.nack false false])

end DeckGenerationQueue

/-- `generateCardsWithFallback` of decks.controller.ts: forward the card
generator outcome, but turn a successful empty `cards` list into a thrown
`Error("Erro ao gerar flashcards.")`. -/
def generateCardsWithFallback (generated : Except Unit GenerateResult) :
    Except Unit (List GeneratedCard) :=
  match generated with
  | Except.error e => Except.error e
  | Except.ok result =>
    if result.cards.length > 0 then Except.ok result.cards
    else Except.error ()

/-- One public operation on the queue singleton, with the oracle data its
external calls consume. -/
inductive Op
  | initOp (connectOk createChannelOk assertQueueOk : Bool)
  | startConsumerOp (connectOk createChannelOk assertQueueOk : Bool)
  | enqueueOp (connectOk createChannelOk assertQueueOk : Bool)
      (jobId : String) (input : EnqueueInput)

/-- The `createChannelOk` oracle an operation would hand to `init`. -/
def opCreateChannelOk : Op → Bool
  | Op.initOp _ cc _ => cc
  | Op.startConsumerOp _ cc _ => cc
  | Op.enqueueOp _ cc _ _ _ => cc

/-- Run one operation, keeping its state change and event trace. -/
def runOp (s : QueueState) : Op → QueueState × List Event
  | Op.initOp co cc aq =>
    ((DeckGenerationQueue.init s co cc aq).1, (DeckGenerationQueue.init s co cc aq).2.1)
  | Op.startConsumerOp co cc aq =>
    ((DeckGenerationQueue.startConsumer s co cc aq).1,
      (DeckGenerationQueue.startConsumer s co cc aq).2.1)
  | Op.enqueueOp co cc aq jobId input =>
    ((DeckGenerationQueue.enqueue s co cc aq jobId input).1,
      (DeckGenerationQueue.enqueue s co cc aq jobId input).2.1)

/-- Run a sequence of operations from a state, concatenating the traces. -/
def run (s : QueueState) : List Op → QueueState × List Event
  | [] => (s, [])
  | op :: rest =>
    let r1 := runOp s op
    let r2 := run r1.1 rest
    (r2.1, r1.2 ++ r2.2)

/-- The status writes a trace performs for one job id, oldest first. -/
def statusWritesFor (jobId : String) : List Event → List DeckGenerationStatus
  | [] => []
  | Event.statusWrite j st :: rest =>
    if j = jobId then st :: statusWritesFor jobId rest
    else statusWritesFor jobId rest
  | _ :: rest => statusWritesFor jobId rest

/-- Position of a status along `queued → processing → terminal`. -/
def statusRank : DeckGenerationStatus → Nat
  | DeckGenerationStatus.queued _ => 0
  | DeckGenerationStatus.processing _ => 1
  | DeckGenerationStatus.completed _ _ => 2
  | DeckGenerationStatus.failed _ => 2

/-- Whether a status is terminal (`completed` or `failed`). -/
def isTerminalStatus : DeckGenerationStatus → Bool
  | DeckGenerationStatus.completed _ _ => true
  | DeckGenerationStatus.failed _ => true
  | _ => false

def countConnect (evs : List Event) : Nat :=
  (evs.filter fun e => match e with | Event.connect => true | _ => false).length

def countCreateChannel (evs : List Event) : Nat :=
  (evs.filter fun e => match e with | Event.createChannel => true | _ => false).length

def countConsumeStart (evs : List Event) : Nat :=
  (evs.filter fun e => match e with | Event.consumeStart _ => true | _ => false).length

namespace DeckGenerationQueue

/-- The insert events the `for` loop performs when every insert succeeds:
one `flashcardModel.insert` per generated card, in pipeline output order. -/
def insertEventsFor (payload : DeckGenerationPayload) (ids : Nat → String) :
    List GeneratedCard → Nat → List Event
  | [], _ => []
  | card :: rest, i =>
    Event.insertCard (mkFlashcardRecord payload (ids i) card) ::
      insertEventsFor payload ids rest (i + 1)

/-- A state in which the channel exists and the consumer is running. -/
def sampleState : QueueState :=
  { connectionSet := true, channelSet := true, isConsuming := true, statuses := [] }

def sampleInput : EnqueueInput :=
  { deckId := "deck-1", deckName := "Biology", deckSubject := "Science",
    userId := "user-1", content := "Photosynthesis converts light into chemical energy.",
    goal := none, tone := none }

def samplePayload : DeckGenerationPayload := mkPayload sampleInput "job-1"

/-- A message whose body parses back into `samplePayload`. -/
def sampleMsg : ConsumeMessage :=
  { parsed := Except.ok samplePayload, messageId := none }

/-- A message whose body fails to parse, carrying a broker message id. -/
def sampleBadMsg : ConsumeMessage :=
  { parsed := Except.error (), messageId := some "mid-1" }

/-- Generator succeeds with an empty card list; all inserts succeed. -/
def sampleEmptyOracle : WorkerOracle :=
  { generated := Except.ok { cards := [] },
    insertOk := fun _ => true, cardIds := fun _ => "card-id" }

def sampleCard1 : GeneratedCard :=
  { question := "What does photosynthesis convert?",
    answer := "Light into chemical energy", difficulty := none, tags := none }

def sampleCard2 : GeneratedCard :=
  { question := "Where does photosynthesis happen?", answer := "In chloroplasts",
    difficulty := some "hard", tags := some ["biology"] }

/-- Generator succeeds with two cards; all inserts succeed. -/
def sampleTwoOracle : WorkerOracle :=
  { generated := Except.ok { cards := [sampleCard1, sampleCard2] },
    insertOk := fun _ => true, cardIds := fun i => "cid" ++ toString i }

/-- A call sequence in which every broker call succeeds. -/
def goodOps : List Op :=
  [Op.enqueueOp true true true "job-1" sampleInput,
   Op.initOp true true true,
   Op.startConsumerOp true true true,
   Op.enqueueOp true true true "job-2" sampleInput]

/-- A first `init` whose connect succeeds but whose channel creation fails,
followed by a second, fully successful `init`. -/
def badInitOps : List Op :=
  [Op.initOp true false true, Op.initOp true true true]

theorem getStatus_setStatus_self (s : QueueState) (j : String) (st : DeckGenerationStatus) :
    getStatus (setStatus s j st) j = some st := by
  simp [getStatus, setStatus, List.find?]

theorem insertCards_all_ok (payload : DeckGenerationPayload) (o : WorkerOracle)
    (hins : ∀ i, o.insertOk i = true) :
    ∀ (cards : List GeneratedCard) (i : Nat),
      insertCards payload o cards i = (insertEventsFor payload o.cardIds cards i, true) := by
  intro cards
  induction cards with
  | nil => intro i; simp [insertCards, insertEventsFor]
  | cons card rest ih =>
    intro i
    simp [insertCards, insertEventsFor, hins i, ih (i + 1)]

theorem insertCards_fail (payload : DeckGenerationPayload) (o : WorkerOracle) :
    ∀ (cards : List GeneratedCard) (i : Nat),
      (∃ k, k < cards.length ∧ o.insertOk (i + k) = false) →
      (insertCards payload o cards i).2 = false := by
  intro cards
  induction cards with
  | nil => intro i h; rcases h with ⟨k, hk, _⟩; simp at hk
  | cons card rest ih =>
    intro i h
    rcases h with ⟨k, hk, hko⟩
    by_cases h0 : o.insertOk i = true
    · simp [insertCards, h0]
      apply ih (i + 1)
      cases k with
      | zero => simp [h0] at hko
      | succ m =>
        refine ⟨m, ?_, ?_⟩
        · simpa using Nat.lt_of_succ_lt_succ hk
        · have hmi : i + 1 + m = i + (m + 1) := by omega
          rw [hmi]; exact hko
    · simp [insertCards, Bool.eq_false_iff.mpr h0]

theorem insertCards_mem (payload : DeckGenerationPayload) (o : WorkerOracle)
    (rec : FlashcardRecord) :
    ∀ (cards : List GeneratedCard) (i : Nat),
      Event.insertCard rec ∈ (insertCards payload o cards i).1 →
      ∃ card ∈ cards, ∃ j, rec = mkFlashcardRecord payload (o.cardIds j) card := by
  intro cards
  induction cards with
  | nil => intro i h; simp [insertCards] at h
  | cons card rest ih =>
    intro i h
    by_cases h0 : o.insertOk i = true
    · simp [insertCards, h0] at h
      rcases h with h | h
      · exact ⟨card, by simp, i, h⟩
      · rcases ih (i + 1) h with ⟨c, hc, j, hj⟩
        exact ⟨c, by simp [hc], j, hj⟩
    · simp [insertCards, Bool.eq_false_iff.mpr h0] at h

theorem statusWritesFor_append (j : String) (a b : List Event) :
    statusWritesFor j (a ++ b) = statusWritesFor j a ++ statusWritesFor j b := by
  induction a with
  | nil => simp [statusWritesFor]
  | cons e rest ih =>
    match e with
    | Event.statusWrite k st =>
      by_cases hk : k = j
      · simp [statusWritesFor, hk, ih]
      · simp [statusWritesFor, hk, ih]
    | Event.connect | Event.createChannel | Event.assertQueue _ _
    | Event.publish _ _ _ | Event.consumeStart _ | Event.insertCard _
    | Event.ack | Event.nack _ _ => simp [statusWritesFor, ih]

theorem statusWritesFor_insertCards (j : String) (payload : DeckGenerationPayload)
    (o : WorkerOracle) :
    ∀ (cards : List GeneratedCard) (i : Nat),
      statusWritesFor j (insertCards payload o cards i).1 = [] := by
  intro cards
  induction cards with
  | nil => intro i; simp [insertCards, statusWritesFor]
  | cons card rest ih =>
    intro i
    by_cases h0 : o.insertOk i = true
    · simp [insertCards, h0, statusWritesFor]
      exact ih (i + 1)
    · simp [insertCards, Bool.eq_false_iff.mpr h0, statusWritesFor]

/-- Per job id, one `handleMessage` run writes one of: nothing, a lone
`failed`, or `processing` followed by one terminal status. -/
theorem handleMessage_writes (s : QueueState) (msg : ConsumeMessage) (o : WorkerOracle)
    (j : String) :
    statusWritesFor j (handleMessage s msg o).2 = [] ∨
    statusWritesFor j (handleMessage s msg o).2 = [failedStatus] ∨
    statusWritesFor j (handleMessage s msg o).2 = [processingStatus, failedStatus] ∨
    ∃ l, statusWritesFor j (handleMessage s msg o).2 = [processingStatus, completedStatus l] := by
  by_cases hch : s.channelSet = true
  · rcases hp : msg.parsed with e | payload
    · by_cases hkey : msg.messageId.getD "unknown" = j
      · right; left
        simp [handleMessage, hch, hp, statusWritesFor, hkey]
      · left
        simp [handleMessage, hch, hp, statusWritesFor, hkey]
    · by_cases hjob : payload.jobId = j
      · rcases hg : o.generated with e | result
        · right; right; left
          simp [handleMessage, hch, hp, hg, statusWritesFor_append, statusWritesFor, hjob]
        · by_cases hall : (insertCards payload o result.cards 0).2 = true
          · right; right; right
            refine ⟨result.cards.map fun c => { question := c.question, answer := c.answer }, ?_⟩
            simp [handleMessage, hch, hp, hg, hall, statusWritesFor_append,
              statusWritesFor_insertCards, statusWritesFor, hjob]
          · right; right; left
            simp [handleMessage, hch, hp, hg, Bool.eq_false_iff.mpr hall,
              statusWritesFor_append, statusWritesFor_insertCards, statusWritesFor, hjob]
      · rcases hg : o.generated with e | result
        · left
          simp [handleMessage, hch, hp, hg, statusWritesFor_append, statusWritesFor, hjob]
        · by_cases hall : (insertCards payload o result.cards 0).2 = true
          · left
            simp [handleMessage, hch, hp, hg, hall, statusWritesFor_append,
              statusWritesFor_insertCards, statusWritesFor, hjob]
          · left
            simp [handleMessage, hch, hp, hg, Bool.eq_false_iff.mpr hall,
              statusWritesFor_append, statusWritesFor_insertCards, statusWritesFor, hjob]
  · left
    simp [handleMessage, Bool.eq_false_iff.mpr hch, statusWritesFor]

theorem enqueue_ok_trace (s : QueueState) (co cc aq : Bool)
    (jobId : String) (input : EnqueueInput)
    (hok : (enqueue s co cc aq jobId input).2.2 = Except.ok jobId) :
    (∃ pre post, (enqueue s co cc aq jobId input).2.1 =
        pre ++ Event.statusWrite jobId queuedStatus ::
          Event.publish queueName (mkPayload input jobId) true :: post) ∧
    getStatus (enqueue s co cc aq jobId input).1 jobId = some queuedStatus := by
  cases hc : s.channelSet with
  | true =>
    cases hcons : s.isConsuming with
    | true =>
      refine ⟨⟨[], [], ?_⟩, ?_⟩ <;>
        simp [enqueue, init, hc, hcons, setStatus, getStatus, List.find?]
    | false =>
      refine ⟨⟨[], [Event.consumeStart queueName], ?_⟩, ?_⟩ <;>
        simp [enqueue, init, startConsumer, hc, hcons, setStatus, getStatus, List.find?]
  | false =>
    cases hco : co with
    | false => simp [enqueue, init, hc, hco] at hok
    | true =>
      cases hcc : cc with
      | false => simp [enqueue, init, hc, hco, hcc] at hok
      | true =>
        cases haq : aq with
        | false => simp [enqueue, init, hc, hco, hcc, haq] at hok
        | true =>
          cases hcons : s.isConsuming with
          | true =>
            refine ⟨⟨[Event.connect, Event.createChannel, Event.assertQueue queueName true],
              [], ?_⟩, ?_⟩ <;>
              simp [enqueue, init, startConsumer, hc, hco, hcc, haq, hcons, setStatus,
                getStatus, List.find?]
          | false =>
            refine ⟨⟨[Event.connect, Event.createChannel, Event.assertQueue queueName true],
              [Event.consumeStart queueName], ?_⟩, ?_⟩ <;>
              simp [enqueue, init, startConsumer, hc, hco, hcc, haq, hcons, setStatus,
                getStatus, List.find?]

theorem enqueue_ok_writes (s : QueueState) (co cc aq : Bool)
    (jobId : String) (input : EnqueueInput)
    (hok : (enqueue s co cc aq jobId input).2.2 = Except.ok jobId) :
    statusWritesFor jobId (enqueue s co cc aq jobId input).2.1 = [queuedStatus] := by
  cases hc : s.channelSet with
  | true =>
    cases hcons : s.isConsuming with
    | true => simp [enqueue, init, hc, hcons, setStatus, statusWritesFor]
    | false => simp [enqueue, init, startConsumer, hc, hcons, setStatus, statusWritesFor]
  | false =>
    cases hco : co with
    | false => simp [enqueue, init, hc, hco] at hok
    | true =>
      cases hcc : cc with
      | false => simp [enqueue, init, hc, hco, hcc] at hok
      | true =>
        cases haq : aq with
        | false => simp [enqueue, init, hc, hco, hcc, haq] at hok
        | true =>
          cases hcons : s.isConsuming with
          | true =>
            simp [enqueue, init, startConsumer, hc, hco, hcc, haq, hcons, setStatus,
              statusWritesFor]
          | false =>
            simp [enqueue, init, startConsumer, hc, hco, hcc, haq, hcons, setStatus,
              statusWritesFor]

/-- C2: a successful `enqueue` writes the `queued` status entry into the
status store strictly before publishing the job message, and a status query
after `enqueue` returns (before the worker runs) sees exactly `queued`. -/
theorem enqueue_status_before_publish (s : QueueState) (co cc aq : Bool)
    (jobId : String) (input : EnqueueInput)
    (hok : (enqueue s co cc aq jobId input).2.2 = Except.ok jobId) :
    (∃ pre post, (enqueue s co cc aq jobId input).2.1 =
        pre ++ Event.statusWrite jobId queuedStatus ::
          Event.publish queueName (mkPayload input jobId) true :: post) ∧
    getStatus (enqueue s co cc aq jobId input).1 jobId = some queuedStatus :=
  enqueue_ok_trace s co cc aq jobId input hok

theorem enqueue_status_before_publish_witness :
    (∃ pre post, (enqueue initialState true true true "job-1" sampleInput).2.1 =
        pre ++ Event.statusWrite "job-1" queuedStatus ::
          Event.publish queueName (mkPayload sampleInput "job-1") true :: post) ∧
    getStatus (enqueue initialState true true true "job-1" sampleInput).1 "job-1"
      = some queuedStatus :=
  enqueue_status_before_publish initialState true true true "job-1" sampleInput rfl

/-- C6: when no channel exists and the broker channel cannot be established
(the connect call fails, or the connect succeeds and the channel creation
fails), `enqueue` fails with a hard error, publishes nothing, writes no
status entry, and leaves the status store untouched. -/
theorem enqueue_broker_unavailable (s : QueueState) (cc aq : Bool) (jobId : String)
    (input : EnqueueInput) (hch : s.channelSet = false) :
    (enqueue s false cc aq jobId input =
      (s, [], Except.error QueueError.brokerUnavailable)) ∧
    (enqueue s true false aq jobId input =
      ({ s with connectionSet := true }, [Event.connect],
        Except.error QueueError.brokerUnavailable)) := by
  constructor <;> simp [enqueue, init, hch]

theorem enqueue_broker_unavailable_witness :
    (enqueue initialState false true true "job-1" sampleInput =
      (initialState, [], Except.error QueueError.brokerUnavailable)) ∧
    (enqueue initialState true false true "job-1" sampleInput =
      ({ initialState with connectionSet := true }, [Event.connect],
        Except.error QueueError.brokerUnavailable)) :=
  enqueue_broker_unavailable initialState true true "job-1" sampleInput rfl

/-- C10: `handleMessage` invoked while the channel is unset returns at once:
no status write, no pipeline call, no insert, no ack and no nack. -/
theorem handleMessage_no_channel (s : QueueState) (msg : ConsumeMessage)
    (o : WorkerOracle) (hch : s.channelSet = false) :
    handleMessage s msg o = (s, []) := by
  simp [handleMessage, hch]

theorem handleMessage_no_channel_witness :
    handleMessage initialState sampleMsg sampleTwoOracle = (initialState, []) :=
  handleMessage_no_channel initialState sampleMsg sampleTwoOracle rfl

/-- C8: an unparseable message is recorded `failed` under the broker
message id when present and under "unknown" otherwise, and the message is
nacked without requeue. -/
theorem malformed_message_failed (s : QueueState) (msg : ConsumeMessage)
    (o : WorkerOracle) (hch : s.channelSet = true)
    (hp : msg.parsed = Except.error ()) :
    handleMessage s msg o =
      (setStatus s (msg.messageId.getD "unknown") failedStatus,
        [Event.statusWrite (msg.messageId.getD "unknown") failedStatus,
          Event.nack false false]) := by
  simp [handleMessage, hch, hp]

theorem malformed_message_failed_witness :
    handleMessage sampleState sampleBadMsg sampleTwoOracle =
      (setStatus sampleState (sampleBadMsg.messageId.getD "unknown") failedStatus,
        [Event.statusWrite (sampleBadMsg.messageId.getD "unknown") failedStatus,
          Event.nack false false]) :=
  malformed_message_failed sampleState sampleBadMsg sampleTwoOracle rfl rfl

/-- C4: across a successful `enqueue` followed by one worker delivery, the
status writes for the job id strictly ascend along
queued → processing → terminal, and at most one terminal status is written. -/
theorem status_lifecycle_monotone (s : QueueState) (co cc aq : Bool)
    (jobId : String) (input : EnqueueInput) (msg : ConsumeMessage)
    (o : WorkerOracle)
    (hok : (enqueue s co cc aq jobId input).2.2 = Except.ok jobId) :
    List.Chain' (fun a b => statusRank a < statusRank b)
      (statusWritesFor jobId ((enqueue s co cc aq jobId input).2.1 ++
        (handleMessage (enqueue s co cc aq jobId input).1 msg o).2)) ∧
    ((statusWritesFor jobId ((enqueue s co cc aq jobId input).2.1 ++
        (handleMessage (enqueue s co cc aq jobId input).1 msg o).2)).filter
        isTerminalStatus).length ≤ 1 := by
  rw [statusWritesFor_append, enqueue_ok_writes s co cc aq jobId input hok]
  rcases handleMessage_writes (enqueue s co cc aq jobId input).1 msg o jobId with
    h | h | h | ⟨l, h⟩ <;> rw [h] <;>
    simp [statusRank, isTerminalStatus, queuedStatus, processingStatus, failedStatus,
      completedStatus, List.chain'_cons, List.Chain']

theorem status_lifecycle_monotone_witness :
    List.Chain' (fun a b => statusRank a < statusRank b)
      (statusWritesFor "job-1" ((enqueue initialState true true true "job-1" sampleInput).2.1 ++
        (handleMessage (enqueue initialState true true true "job-1" sampleInput).1
          sampleMsg sampleTwoOracle).2)) ∧
    ((statusWritesFor "job-1" ((enqueue initialState true true true "job-1" sampleInput).2.1 ++
        (handleMessage (enqueue initialState true true true "job-1" sampleInput).1
          sampleMsg sampleTwoOracle).2)).filter isTerminalStatus).length ≤ 1 :=
  status_lifecycle_monotone initialState true true true "job-1" sampleInput sampleMsg
    sampleTwoOracle rfl

/-- C3: on a successfully parsed job whose generator returns cards and whose
inserts all succeed, the worker inserts each card sequentially in pipeline
output order, records `completed` with exactly the order-preserving
question/answer projection of the pipeline output, and acks the message. -/
theorem worker_success_completes (s : QueueState) (msg : ConsumeMessage)
    (o : WorkerOracle) (p : DeckGenerationPayload) (r : GenerateResult)
    (hch : s.channelSet = true) (hp : msg.parsed = Except.ok p)
    (hg : o.generated = Except.ok r) (_hne : r.cards ≠ [])
    (hins : ∀ i, o.insertOk i = true) :
    handleMessage s msg o =
      (setStatus (setStatus s p.jobId processingStatus) p.jobId
        (completedStatus (r.cards.map fun c =>
          { question := c.question, answer := c.answer })),
       Event.statusWrite p.jobId processingStatus ::
         (insertEventsFor p o.cardIds r.cards 0 ++
           [Event.statusWrite p.jobId
              (completedStatus (r.cards.map fun c =>
                { question := c.question, answer := c.answer })),
            Event.ack])) := by
  simp [handleMessage, hch, hp, hg, insertCards_all_ok p o hins]

theorem worker_success_completes_witness :
    handleMessage sampleState sampleMsg sampleTwoOracle =
      (setStatus (setStatus sampleState samplePayload.jobId processingStatus)
        samplePayload.jobId
        (completedStatus ([sampleCard1, sampleCard2].map fun c =>
          { question := c.question, answer := c.answer })),
       Event.statusWrite samplePayload.jobId processingStatus ::
         (insertEventsFor samplePayload sampleTwoOracle.cardIds [sampleCard1, sampleCard2] 0 ++
           [Event.statusWrite samplePayload.jobId
              (completedStatus ([sampleCard1, sampleCard2].map fun c =>
                { question := c.question, answer := c.answer })),
            Event.ack])) :=
  worker_success_completes sampleState sampleMsg sampleTwoOracle samplePayload
    { cards := [sampleCard1, sampleCard2] } rfl rfl rfl (by simp) (fun _ => rfl)

/-- C5: any error while handling a message — parse failure, generator
failure, or a failing insert — leaves a `failed` status under the job key
derived in the catch block, and the handler's last broker action is a nack
without requeue; the handler itself returns normally. -/
theorem worker_absorbs_errors (s : QueueState) (msg : ConsumeMessage)
    (o : WorkerOracle) (hch : s.channelSet = true)
    (herr : msg.parsed = Except.error () ∨
      (∃ p, msg.parsed = Except.ok p ∧ o.generated = Except.error ()) ∨
      (∃ p r, msg.parsed = Except.ok p ∧ o.generated = Except.ok r ∧
        ∃ k, k < r.cards.length ∧ o.insertOk k = false)) :
    getStatus (handleMessage s msg o).1
      (match msg.parsed with
        | Except.error _ => msg.messageId.getD "unknown"
        | Except.ok p => p.jobId) = some failedStatus ∧
    ∃ pre, (handleMessage s msg o).2 = pre ++ [Event.nack false false] := by
  rcases herr with hp | ⟨p, hp, hg⟩ | ⟨p, r, hp, hg, k, hk, hko⟩
  · refine ⟨?_, [Event.statusWrite (msg.messageId.getD "unknown") failedStatus], ?_⟩ <;>
      simp [handleMessage, hch, hp, getStatus, setStatus, List.find?]
  · refine ⟨?_, [Event.statusWrite p.jobId processingStatus,
      Event.statusWrite p.jobId failedStatus], ?_⟩ <;>
      simp [handleMessage, hch, hp, hg, getStatus, setStatus, List.find?]
  · have hfail : (insertCards p o r.cards 0).2 = false := by
      apply insertCards_fail
      exact ⟨k, hk, by simpa using hko⟩
    refine ⟨?_, Event.statusWrite p.jobId processingStatus ::
        ((insertCards p o r.cards 0).1 ++ [Event.statusWrite p.jobId failedStatus]), ?_⟩ <;>
      simp [handleMessage, hch, hp, hg, hfail, getStatus, setStatus, List.find?]

theorem worker_absorbs_errors_witness :
    getStatus (handleMessage sampleState sampleBadMsg sampleTwoOracle).1
      (match sampleBadMsg.parsed with
        | Except.error _ => sampleBadMsg.messageId.getD "unknown"
        | Except.ok p => p.jobId) = some failedStatus ∧
    ∃ pre, (handleMessage sampleState sampleBadMsg sampleTwoOracle).2 =
      pre ++ [Event.nack false false] :=
  worker_absorbs_errors sampleState sampleBadMsg sampleTwoOracle rfl (Or.inl rfl)

/-- C7: every record handed to `flashcardModel.insert` by the worker carries
the fixed bookkeeping fields (status "new", review count 0, no last-review
date) and the defaulted difficulty/tags of the generated card it projects. -/
theorem insert_record_defaults (s : QueueState) (msg : ConsumeMessage)
    (o : WorkerOracle) (rec : FlashcardRecord)
    (hmem : Event.insertCard rec ∈ (handleMessage s msg o).2) :
    rec.status = "new" ∧ rec.review_count = 0 ∧ rec.last_review_date = none ∧
    ∃ card, (∃ r, o.generated = Except.ok r ∧ card ∈ r.cards) ∧
      rec.question = card.question ∧ rec.answer = card.answer ∧
      rec.difficulty = card.difficulty.getD "medium" ∧
      rec.tags = card.tags.getD [] := by
  by_cases hch : s.channelSet = true
  · rcases hp : msg.parsed with e | payload
    · simp [handleMessage, hch, hp] at hmem
    · rcases hg : o.generated with e | result
      · simp [handleMessage, hch, hp, hg] at hmem
      · have hmem2 : Event.insertCard rec ∈ (insertCards payload o result.cards 0).1 := by
          by_cases hall : (insertCards payload o result.cards 0).2 = true
          · simp [handleMessage, hch, hp, hg, hall] at hmem
            exact hmem
          · simp [handleMessage, hch, hp, hg, Bool.eq_false_iff.mpr hall] at hmem
            exact hmem
        rcases insertCards_mem payload o rec result.cards 0 hmem2 with ⟨card, hcard, jj, hrec⟩
        subst hrec
        exact ⟨rfl, rfl, rfl, card, ⟨result, by simp [hg], hcard⟩, rfl, rfl, rfl, rfl⟩
  · simp [handleMessage, Bool.eq_false_iff.mpr hch] at hmem

theorem insert_record_defaults_witness :
    (mkFlashcardRecord samplePayload "cid0" sampleCard1).status = "new" ∧
    (mkFlashcardRecord samplePayload "cid0" sampleCard1).review_count = 0 ∧
    (mkFlashcardRecord samplePayload "cid0" sampleCard1).last_review_date = none ∧
    ∃ card, (∃ r, sampleTwoOracle.generated = Except.ok r ∧ card ∈ r.cards) ∧
      (mkFlashcardRecord samplePayload "cid0" sampleCard1).question = card.question ∧
      (mkFlashcardRecord samplePayload "cid0" sampleCard1).answer = card.answer ∧
      (mkFlashcardRecord samplePayload "cid0" sampleCard1).difficulty
        = card.difficulty.getD "medium" ∧
      (mkFlashcardRecord samplePayload "cid0" sampleCard1).tags = card.tags.getD [] :=
  insert_record_defaults sampleState sampleMsg sampleTwoOracle
    (mkFlashcardRecord samplePayload "cid0" sampleCard1) (by decide)

/-- C1 counterexample: a worker job whose generator succeeds with an empty
card list is recorded `completed` with zero cards and acked, not `failed`. -/
theorem empty_result_completed_counterexample :
    getStatus (handleMessage sampleState sampleMsg sampleEmptyOracle).1 "job-1"
      = some (completedStatus []) ∧
    getStatus (handleMessage sampleState sampleMsg sampleEmptyOracle).1 "job-1"
      ≠ some failedStatus ∧
    (handleMessage sampleState sampleMsg sampleEmptyOracle).2.getLast? = some Event.ack := by
  decide

/-- C1 amended: the worker records a successful empty generation as
`completed` with an empty card list and acks the message; only the
controller path (`generateCardsWithFallback`) promotes an empty result
list to a failure. -/
theorem empty_result_worker_completes (s : QueueState) (msg : ConsumeMessage)
    (o : WorkerOracle) (p : DeckGenerationPayload)
    (hch : s.channelSet = true) (hp : msg.parsed = Except.ok p)
    (hg : o.generated = Except.ok { cards := [] }) :
    getStatus (handleMessage s msg o).1 p.jobId = some (completedStatus []) ∧
    (handleMessage s msg o).2 =
      [Event.statusWrite p.jobId processingStatus,
        Event.statusWrite p.jobId (completedStatus []), Event.ack] ∧
    generateCardsWithFallback (Except.ok { cards := [] }) = Except.error () := by
  refine ⟨?_, ?_, rfl⟩ <;>
    simp [handleMessage, hch, hp, hg, insertCards, getStatus, setStatus, List.find?]

theorem empty_result_worker_completes_witness :
    getStatus (handleMessage sampleState sampleMsg sampleEmptyOracle).1 samplePayload.jobId
      = some (completedStatus []) ∧
    (handleMessage sampleState sampleMsg sampleEmptyOracle).2 =
      [Event.statusWrite samplePayload.jobId processingStatus,
        Event.statusWrite samplePayload.jobId (completedStatus []), Event.ack] ∧
    generateCardsWithFallback (Except.ok { cards := [] }) = Except.error () :=
  empty_result_worker_completes sampleState sampleMsg sampleEmptyOracle samplePayload
    rfl rfl rfl

end DeckGenerationQueue

theorem countConnect_append (a b : List Event) :
    countConnect (a ++ b) = countConnect a + countConnect b := by
  simp [countConnect, List.filter_append]

theorem countCreateChannel_append (a b : List Event) :
    countCreateChannel (a ++ b) = countCreateChannel a + countCreateChannel b := by
  simp [countCreateChannel, List.filter_append]

theorem countConsumeStart_append (a b : List Event) :
    countConsumeStart (a ++ b) = countConsumeStart a + countConsumeStart b := by
  simp [countConsumeStart, List.filter_append]

theorem runOp_counts (s : QueueState) (op : Op) :
    countCreateChannel (runOp s op).2 + cond s.channelSet 1 0
        = cond (runOp s op).1.channelSet 1 0 ∧
    countConsumeStart (runOp s op).2 + cond s.isConsuming 1 0
        = cond (runOp s op).1.isConsuming 1 0 ∧
    (opCreateChannelOk op = true →
      countConnect (runOp s op).2 + cond s.channelSet 1 0
        = cond (runOp s op).1.channelSet 1 0) := by
  cases op with
  | initOp co cc aq =>
    cases hc : s.channelSet <;> cases co <;> cases cc <;> cases aq <;>
      simp [runOp, opCreateChannelOk, DeckGenerationQueue.init, hc,
        countConnect, countCreateChannel, countConsumeStart, List.filter]
  | startConsumerOp co cc aq =>
    cases hc : s.channelSet <;> cases co <;> cases cc <;> cases aq <;>
      cases hcons : s.isConsuming <;>
      simp [runOp, opCreateChannelOk, DeckGenerationQueue.startConsumer,
        DeckGenerationQueue.init, hc, hcons,
        countConnect, countCreateChannel, countConsumeStart, List.filter]
  | enqueueOp co cc aq jobId input =>
    cases hc : s.channelSet <;> cases co <;> cases cc <;> cases aq <;>
      cases hcons : s.isConsuming <;>
      simp [runOp, opCreateChannelOk, DeckGenerationQueue.enqueue,
        DeckGenerationQueue.startConsumer, DeckGenerationQueue.init,
        DeckGenerationQueue.setStatus, hc, hcons,
        countConnect, countCreateChannel, countConsumeStart, List.filter]

theorem run_counts (ops : List Op) : ∀ s : QueueState,
    countCreateChannel (run s ops).2 + cond s.channelSet 1 0
        = cond (run s ops).1.channelSet 1 0 ∧
    countConsumeStart (run s ops).2 + cond s.isConsuming 1 0
        = cond (run s ops).1.isConsuming 1 0 ∧
    ((∀ op ∈ ops, opCreateChannelOk op = true) →
      countConnect (run s ops).2 + cond s.channelSet 1 0
        = cond (run s ops).1.channelSet 1 0) := by
  induction ops with
  | nil =>
    intro s
    simp [run, countConnect, countCreateChannel, countConsumeStart, List.filter]
  | cons op rest ih =>
    intro s
    rcases runOp_counts s op with ⟨h1, h2, h3⟩
    rcases ih (runOp s op).1 with ⟨h4, h5, h6⟩
    refine ⟨?_, ?_, ?_⟩
    · simp only [run, countCreateChannel_append]; omega
    · simp only [run, countConsumeStart_append]; omega
    · intro hall
      have hop := h3 (hall op (by simp))
      have hrest := h6 (fun o ho => hall o (by simp [ho]))
      simp only [run, countConnect_append]; omega

/-- C9 counterexample: an `init` whose connect succeeds but whose channel
creation fails leaves `connection` assigned and `channel` unset, so a
second `init` passes the guard and connects again — the concrete two-call
sequence `badInitOps` creates two connections. -/
theorem double_connection_counterexample :
    countConnect (run initialState DeckGenerationQueue.badInitOps).2 = 2 ∧
    ¬ countConnect (run initialState DeckGenerationQueue.badInitOps).2 ≤ 1 := by
  decide

/-- C9 amended: from the initial singleton state, any sequence of `init`,
`startConsumer` and `enqueue` calls creates at most one channel and
registers at most one consumer subscription (the `channel` and
`isConsuming` guards); and when no init attempt fails between its connect
and its channel creation, at most one connection is created as well. -/
theorem single_channel_single_consumer (ops : List Op) :
    countCreateChannel (run initialState ops).2 ≤ 1 ∧
    countConsumeStart (run initialState ops).2 ≤ 1 ∧
    ((∀ op ∈ ops, opCreateChannelOk op = true) →
      countConnect (run initialState ops).2 ≤ 1) := by
  rcases run_counts ops initialState with ⟨h1, h2, h3⟩
  have hz : cond initialState.channelSet 1 0 = 0 := rfl
  have hz2 : cond initialState.isConsuming 1 0 = 0 := rfl
  rw [hz] at h1
  rw [hz2] at h2
  have hb : ∀ b : Bool, cond b 1 0 ≤ 1 := by intro b; cases b <;> simp
  have hc1 := hb (run initialState ops).1.channelSet
  have hc2 := hb (run initialState ops).1.isConsuming
  refine ⟨by omega, by omega, ?_⟩
  intro hall
  have h4 := h3 hall
  rw [hz] at h4
  omega

theorem single_channel_single_consumer_witness :
    countCreateChannel (run initialState DeckGenerationQueue.goodOps).2 ≤ 1 ∧
    countConsumeStart (run initialState DeckGenerationQueue.goodOps).2 ≤ 1 ∧
    countConnect (run initialState DeckGenerationQueue.goodOps).2 ≤ 1 :=
  ⟨(single_channel_single_consumer DeckGenerationQueue.goodOps).1,
   (single_channel_single_consumer DeckGenerationQueue.goodOps).2.1,
   (single_channel_single_consumer DeckGenerationQueue.goodOps).2.2 (by decide)⟩

end Educaia
